import Mathlib

/- Verification development for the WorldWindExplorer repository.

   The development shallowly embeds the symbol-code codec and cascading
   option-filtering logic of src/root/js/viewmodels/TacticalSymbolEditor.js
   (knockout observables become explicit record fields of an editor state;
   each subscriber becomes a function run by the corresponding setter, with
   knockout's notification rule: setting an observable notifies unless the
   old and the new value are both undefined) and the fire-record helpers of
   src/root/js/FireRestAPI.js.  A JavaScript exception escaping a handler is
   modelled with Except, the thrown-at state carried in the error. -/

namespace TacticalSymbolEditor

/-- Modelled from the spec: the bundled symbology definition file
`libs/milsymbol/2525C emergency-managment.json` is not part of src/, so a
catalog function entry (one element of a dimension's "main icon" array) is
modelled from spec section 3: a name hierarchy (most-general first), a
one-character battle dimension and a six-character function code. -/
structure Func where
  name : List String
  battleDimension : String
  code : String
deriving DecidableEq, Repr

/-- Modelled from the spec: one entry of a dimension's "modifier 1" or
"modifier 2" table of the missing catalog file; the table maps a
one-character key to an object with a display name. -/
structure ModEntry where
  key : String
  name : String
deriving DecidableEq, Repr

/-- Modelled from the spec: one top-level entry of the missing catalog file:
a (possibly unnamed) dimension with its "main icon" array and the two
modifier tables.  An entry whose name is empty stands for a catalog entry
lacking a usable name (the spec's dimensionsOf filters those out). -/
structure RawDim where
  name : String
  mainIcon : List Func
  modifiers1 : List ModEntry
  modifiers2 : List ModEntry
deriving DecidableEq, Repr

/-- Modelled from the spec: the parsed content of the missing
emergency-management symbology JSON: its display name and its dimension
entries in object-key order. -/
structure EmergencyJson where
  name : String
  entries : List RawDim
deriving DecidableEq, Repr

/-- One element of `schemeOptions` (TacticalSymbolEditor.js line 84): a
value/name pair plus the scheme's symbology dictionary. -/
structure SchemeOption where
  value : String
  name : String
  code : String
  symbols : EmergencyJson
deriving DecidableEq, Repr

/-- One element of `dimensionOptions` as pushed by the scheme subscriber
(lines 118-122). -/
structure DimOption where
  name : String
  functions : List Func
  modifiers1 : List ModEntry
  modifiers2 : List ModEntry
deriving DecidableEq, Repr

/-- One element of `functionOptions` as pushed by the dimension subscriber
(lines 142-145): an indented display name paired with the function. -/
structure FuncOption where
  name : String
  function : Func
deriving DecidableEq, Repr

/-- One element of `modifierOptions1`/`modifierOptions2` (value/name pair). -/
structure ModOption where
  value : String
  name : String
deriving DecidableEq, Repr

/-- A status or affiliation dropdown entry (value/name pair). -/
structure NameValue where
  value : String
  name : String
deriving DecidableEq, Repr

/-- The editor's observable state: the option lists and the current
selections (an unset knockout observable is `none`).  `schemeOptions` is
populated once in the constructor and never mutated. -/
structure EState where
  schemeOptions : List SchemeOption
  dimensionOptions : List DimOption
  functionOptions : List FuncOption
  modifierOptions1 : List ModOption
  modifierOptions2 : List ModOption
  selectedScheme : Option SchemeOption
  selectedAffiliation : Option NameValue
  selectedStatus : Option NameValue
  selectedDimension : Option DimOption
  selectedFunction : Option FuncOption
  selectedModifier1 : Option ModOption
  selectedModifier2 : Option ModOption
deriving DecidableEq, Repr

/-- `statusOptions` (line 52): only the "P: Present" entry is active. -/
def statusOptions : List NameValue := [⟨"P", "P: Present"⟩]

/-- `affiliationOptions` (line 64): only the "H: Hostile" entry is active. -/
def affiliationOptions : List NameValue := [⟨"H", "H: Hostile"⟩]

/-- The single active scheme option (line 88): value "E", emergency
management. -/
def emsSchemeOption (emergency : EmergencyJson) : SchemeOption :=
  ⟨"E", "E: " ++ emergency.name, "EMS", emergency⟩

/-- `schemeOptions` (lines 84-88): the one-element list holding the
emergency-management scheme. -/
def schemeOptionList (emergency : EmergencyJson) : List SchemeOption :=
  [emsSchemeOption emergency]

/-- JavaScript `String.prototype.substring(a, b)` for `a ≤ b` (used with
in-range positions on the 12-character code at lines 199-205). -/
def jsSubstring (s : String) (a b : Nat) : String :=
  ((s.toList.drop a).take (b - a)).asString

/-- Display name built by the dimension subscriber (line 144): every name
hierarchy element except the last is replaced by an en-dash marker. -/
def functionDisplayName (f : Func) : String :=
  String.join (List.replicate (f.name.length - 1) "– ") ++ f.name.getLastD ""

/-- Function options rebuilt on a dimension change (lines 139-146). -/
def dimensionFunctionOptions (d : DimOption) : List FuncOption :=
  d.functions.map (fun f => ⟨functionDisplayName f, f⟩)

/-- Modifier-1 options rebuilt on a dimension change (lines 148-157): the
dimension's modifier-1 table, plus the two synthetic Mobility / Towed Array
options when the dimension is named "Ground Equipment" exactly. -/
def dimensionModifierOptions1 (d : DimOption) : List ModOption :=
  d.modifiers1.map (fun e => ⟨e.key, e.name⟩) ++
    (if d.name == "Ground Equipment" then
      [⟨"M", "Mobility"⟩, ⟨"N", "Towed Array"⟩]
    else [])

/-- Modifier-2 options rebuilt on a dimension change (lines 158-163). -/
def dimensionModifierOptions2 (d : DimOption) : List ModOption :=
  d.modifiers2.map (fun e => ⟨e.key, e.name⟩)

/-- Dimension options rebuilt on a scheme change (lines 115-124): every
symbols entry with a truthy name, in object-key order. -/
def schemeDimensionOptions (sch : SchemeOption) : List DimOption :=
  sch.symbols.entries.filterMap (fun r =>
    if r.name == "" then none
    else some ⟨r.name, r.mainIcon, r.modifiers1, r.modifiers2⟩)

/-- The fixed 11-entry mobility vocabulary (lines 171-181). -/
def mobilityOptions : List ModOption :=
  [⟨"O", "Wheeled/Limited XCountry"⟩,
   ⟨"P", "Wheeled Cross Country"⟩,
   ⟨"Q", "Tracked"⟩,
   ⟨"R", "Wheeled and Tracked"⟩,
   ⟨"S", "Towed"⟩,
   ⟨"T", "Rail"⟩,
   ⟨"U", "Over the Snow"⟩,
   ⟨"V", "Sled"⟩,
   ⟨"W", "Pack Animals"⟩,
   ⟨"X", "Barge"⟩,
   ⟨"Y", "Amphibious"⟩]

/-- The fixed 2-entry towed-array vocabulary (lines 185-186). -/
def towedArrayOptions : List ModOption :=
  [⟨"S", "Towed Array (Short)"⟩, ⟨"L", "Towed Array (Long)"⟩]

/-- Effect of the modifier-1 subscriber (lines 167-189) on the modifier-2
option list: two sequential `if` statements replace the list wholesale when
the new value's key is "M" or "N". -/
def modifierOptions2Update (v : String) (cur : List ModOption) : List ModOption :=
  let cur1 := if v == "M" then mobilityOptions else cur
  if v == "N" then towedArrayOptions else cur1

/-- The `selectedModifier1` subscriber body for a truthy value (lines
168-188): it only ever rewrites the modifier-2 option list. -/
def modifier1Subscribe (m : ModOption) (s : EState) : EState :=
  { s with modifierOptions2 := modifierOptions2Update m.value s.modifierOptions2 }

/-- Setting the `selectedModifier1` observable: knockout skips notification
only when old and new value are both undefined; otherwise the subscriber
runs (and does nothing for an undefined value, line 168). -/
def setSelectedModifier1 (v : Option ModOption) (s : EState) : EState :=
  if s.selectedModifier1 = none ∧ v = none then s
  else
    let s1 := { s with selectedModifier1 := v }
    match v with
    | none => s1
    | some m => modifier1Subscribe m s1

/-- The `selectedDimension` subscriber (lines 131-165): empty the three
dependent option lists, then rebuild them when the new dimension is truthy. -/
def dimensionSubscribe (v : Option DimOption) (s : EState) : EState :=
  let s1 := { s with functionOptions := [], modifierOptions1 := [],
                     modifierOptions2 := [] }
  match v with
  | none => s1
  | some dim =>
      { s1 with functionOptions := dimensionFunctionOptions dim,
                modifierOptions1 := dimensionModifierOptions1 dim,
                modifierOptions2 := dimensionModifierOptions2 dim }

/-- Setting the `selectedDimension` observable (same notification rule). -/
def setSelectedDimension (v : Option DimOption) (s : EState) : EState :=
  if s.selectedDimension = none ∧ v = none then s
  else dimensionSubscribe v { s with selectedDimension := v }

/-- The `selectedScheme` subscriber (lines 114-125): empty the dimension
option list, then iterate `scheme.symbols`.  For an undefined scheme the
member access `scheme.symbols` throws a TypeError, modelled as an error
carrying the state at the throw point. -/
def schemeSubscribe (v : Option SchemeOption) (s : EState) : Except EState EState :=
  let s1 := { s with dimensionOptions := [] }
  match v with
  | none => Except.error s1
  | some sch => Except.ok { s1 with dimensionOptions := schemeDimensionOptions sch }

/-- Setting the `selectedScheme` observable (same notification rule); the
subscriber may throw. -/
def setSelectedScheme (v : Option SchemeOption) (s : EState) : Except EState EState :=
  if s.selectedScheme = none ∧ v = none then Except.ok s
  else schemeSubscribe v { s with selectedScheme := v }

/-- Steps 3-9 of the `symbol` subscriber (lines 213-248), which run after
the scheme resolution; none of them can throw. -/
def decodeRest (symbolCode : String) (s1 : EState) : EState :=
  let battleDim := jsSubstring symbolCode 2 3
  let statusValue := jsSubstring symbolCode 3 4
  let functionId := jsSubstring symbolCode 4 10
  let modifierValue1 := jsSubstring symbolCode 10 11
  let modifierValue2 := jsSubstring symbolCode 11 12
  let stdIdenitiy := jsSubstring symbolCode 1 2
  let dimension := s1.dimensionOptions.find? (fun element =>
    (element.functions.find? (fun iconElement =>
      iconElement.battleDimension == battleDim
        && iconElement.code == functionId)).isSome)
  let s2 := setSelectedDimension dimension s1
  let s3 :=
    if s2.selectedDimension.isSome then
      { s2 with selectedFunction :=
          s2.functionOptions.find? (fun element =>
            element.function.code == functionId) }
    else s2
  let s4 := { s3 with selectedAffiliation :=
      affiliationOptions.find? (fun element => element.value == stdIdenitiy) }
  let s5 := { s4 with selectedStatus :=
      statusOptions.find? (fun element => element.value == statusValue) }
  let modifier1 := s5.modifierOptions1.find? (fun element =>
      element.value == modifierValue1)
  let s6 := setSelectedModifier1 modifier1 s5
  { s6 with selectedModifier2 :=
      s6.modifierOptions2.find? (fun element =>
        element.value == modifierValue2) }

/-- The `symbol` subscriber (lines 197-251): decode a 12-character code into
the selection, field by field.  Only the scheme resolution step can throw
(when the handler receives an undefined scheme while a scheme was
previously selected). -/
def symbolSubscribe (symbolCode : String) (s : EState) : Except EState EState :=
  let codingScheme := jsSubstring symbolCode 0 1
  let scheme := s.schemeOptions.find? (fun element => element.value == codingScheme)
  match setSelectedScheme scheme s with
  | Except.error t => Except.error t
  | Except.ok s1 => Except.ok (decodeRest symbolCode s1)

/-- The local `icon` of `onSave` (line 258): the selected function, if any. -/
def onSaveIcon (s : EState) : Option Func :=
  s.selectedFunction.map (fun f => f.function)

/-- The local `codingScheme` of `onSave` (line 259), default "S". -/
def onSaveCodingScheme (s : EState) : String :=
  match s.selectedScheme with
  | some sch => sch.value
  | none => "S"

/-- The local `stdIdentity` of `onSave` (line 260), default "U". -/
def onSaveStdIdentity (s : EState) : String :=
  match s.selectedAffiliation with
  | some a => a.value
  | none => "U"

/-- The local `operationalStatus` of `onSave` (line 261), default "-". -/
def onSaveOperationalStatus (s : EState) : String :=
  match s.selectedStatus with
  | some st => st.value
  | none => "-"

/-- The local `battleDim` of `onSave` (line 262), default "Z". -/
def onSaveBattleDim (s : EState) : String :=
  match onSaveIcon s with
  | some ic => ic.battleDimension
  | none => "Z"

/-- The local `functionId` of `onSave` (line 263), default "------". -/
def onSaveFunctionId (s : EState) : String :=
  match onSaveIcon s with
  | some ic => ic.code
  | none => "------"

/-- The local `modifier1` of `onSave` (line 264), default "-". -/
def onSaveModifier1 (s : EState) : String :=
  match s.selectedModifier1 with
  | some m => m.value
  | none => "-"

/-- The local `modifier2` of `onSave` (line 265), default "-". -/
def onSaveModifier2 (s : EState) : String :=
  match s.selectedModifier2 with
  | some m => m.value
  | none => "-"

/-- The symbol-code construction inside `onSave` (lines 257-275): the seven
fields concatenated in order, each falling back to its documented default
when the selection is unset. -/
def onSave (s : EState) : String :=
  onSaveCodingScheme s ++ onSaveStdIdentity s ++ onSaveBattleDim s
    ++ onSaveOperationalStatus s ++ onSaveFunctionId s
    ++ onSaveModifier1 s ++ onSaveModifier2 s

/-- The editor state right after the constructor ran (lines 47-108): fixed
scheme options, everything else empty or unset. -/
def initialState (emergency : EmergencyJson) : EState :=
  { schemeOptions := schemeOptionList emergency,
    dimensionOptions := [], functionOptions := [],
    modifierOptions1 := [], modifierOptions2 := [],
    selectedScheme := none, selectedAffiliation := none,
    selectedStatus := none, selectedDimension := none,
    selectedFunction := none, selectedModifier1 := none,
    selectedModifier2 := none }

/-- State after the `symbol` subscriber ran, whether or not it threw (in
JavaScript the mutations before a throw persist). -/
def decodeState (symbolCode : String) (s : EState) : EState :=
  match symbolSubscribe symbolCode s with
  | Except.ok t => t
  | Except.error t => t

/-- Whether the `symbol` subscriber threw. -/
def decodeThrew (symbolCode : String) (s : EState) : Bool :=
  match symbolSubscribe symbolCode s with
  | Except.ok _ => false
  | Except.error _ => true

/-- Encode-after-decode: the code produced by saving right after decoding,
or `none` when the decode threw. -/
def encodeAfterDecode (symbolCode : String) (s : EState) : Option String :=
  match symbolSubscribe symbolCode s with
  | Except.ok t => some (onSave t)
  | Except.error _ => none

/-- State after the `selectedScheme` observable was set, whether or not the
subscriber threw. -/
def setSchemeState (v : Option SchemeOption) (s : EState) : EState :=
  match setSelectedScheme v s with
  | Except.ok t => t
  | Except.error t => t

/-- Modifier-2 option list in effect after a dimension cascade followed by a
modifier-1 change with the given key. -/
def modifierOptions2After (d : DimOption) (v : String) : List ModOption :=
  modifierOptions2Update v (dimensionModifierOptions2 d)

/-- A selection built from one catalog function: its scheme, its dimension
and the function itself, every other field untouched. -/
def selectionFromFunction (cat : EmergencyJson) (d : DimOption) (fo : FuncOption) :
    EState :=
  { initialState cat with
      selectedScheme := some (emsSchemeOption cat),
      selectedDimension := some d,
      selectedFunction := some fo }

end TacticalSymbolEditor

namespace WorldWind

/-- Modelled from the spec: `WorldWind.Position` of the out-of-scope globe
engine, as constructed at FireRestAPI.js line 242; it just carries the three
coordinates, whose runtime values are opaque here. -/
structure Position (V : Type) where
  latitude : V
  longitude : V
  altitude : V
deriving DecidableEq, Repr

end WorldWind

namespace FireRestAPI

/-- One row of the fire service's `data` array as read by `handleFires`
(FireRestAPI.js lines 240-246); field values are opaque JavaScript values. -/
structure FireRecord (V : Type) where
  fire_lat : V
  fire_lon : V
  fire_alt : V
  fid : V
  reportedtimemark : V
  fire_extinguished : V
  fire_verified : V
deriving DecidableEq, Repr

/-- Modelled from the spec: the argument record passed to the out-of-scope
`TacticalSymbol` constructor at FireRestAPI.js lines 247-248. -/
structure TacticalSymbolArgs (V : Type) where
  position : WorldWind.Position V
  symbolCode : String
  timeReported : V
  timeExtinguished : V
  isMoveable : Bool
  user : Bool
  verified : V
  fid : V
deriving DecidableEq, Repr

/-- The loop body of `handleFires` (lines 240-252): one `TacticalSymbol`
per row of `obj.data`, in array order, every one with the fixed symbol code
"EHIPC-------". -/
def handleFires {V : Type} (data : List (FireRecord V)) :
    List (TacticalSymbolArgs V) :=
  data.map (fun r =>
    { position := ⟨r.fire_lat, r.fire_lon, r.fire_alt⟩,
      symbolCode := "EHIPC-------",
      timeReported := r.reportedtimemark,
      timeExtinguished := r.fire_extinguished,
      isMoveable := false,
      user := false,
      verified := r.fire_verified,
      fid := r.fid })

/-- `FireRestAPI.tryParseJSONString` (lines 260-266), with the external
builtin `JSON.parse` — which either returns a value or throws — passed in
as a function into `Except`. -/
def tryParseJSONString {ε α : Type} (jsonParse : String → Except ε α)
    (str : String) : Option α :=
  match jsonParse str with
  | Except.ok v => some v
  | Except.error _ => none

end FireRestAPI

namespace TacticalSymbolEditor

/-- A small concrete catalog instance of the spec's data model, used to
exercise the codec on closed inputs. -/
def sampleFunc : Func := ⟨["Incident", "Fire"], "G", "IN----"⟩

/-- A labelled catalog entry holding `sampleFunc` and one entry in each
modifier table. -/
def sampleDim : RawDim := ⟨"Incident", [sampleFunc], [⟨"A", "Alpha"⟩], [⟨"B", "Bravo"⟩]⟩

/-- A one-dimension sample catalog. -/
def sampleCat : EmergencyJson := ⟨"EMERGENCY MANAGEMENT SYMBOLS", [sampleDim]⟩

/-- The dimension option the cascade derives from `sampleDim`. -/
def sampleDimOption : DimOption :=
  ⟨"Incident", [sampleFunc], [⟨"A", "Alpha"⟩], [⟨"B", "Bravo"⟩]⟩

/-- The function option the cascade derives from `sampleFunc`. -/
def sampleFuncOption : FuncOption := ⟨"– Fire", sampleFunc⟩

/-- An editor state with every field selected, reached by decoding the
well-formed code "EHGPIN----AB" from the initial state. -/
def dirtyState : EState := decodeState "EHGPIN----AB" (initialState sampleCat)

/-- Two catalog functions sharing a function code but differing in battle
dimension: their (battle dimension, code) pairs are distinct, so the spec's
uniqueness invariant on pairs holds. -/
def dupF1 : Func := ⟨["A1"], "G", "000000"⟩

/-- Second function with the shared code (battle dimension "Z"). -/
def dupF2 : Func := ⟨["A2"], "Z", "000000"⟩

/-- A labelled catalog entry holding both duplicate-code functions. -/
def dupDim : RawDim := ⟨"Dup", [dupF1, dupF2], [⟨"A", "Alpha"⟩], [⟨"B", "Bravo"⟩]⟩

/-- A catalog satisfying the spec's pair-uniqueness invariant but with a
duplicated bare function code inside one dimension. -/
def dupCat : EmergencyJson := ⟨"EMS", [dupDim]⟩

/-- The dimension option derived from `dupDim`. -/
def dupDimOption : DimOption :=
  ⟨"Dup", [dupF1, dupF2], [⟨"A", "Alpha"⟩], [⟨"B", "Bravo"⟩]⟩

/-- Setting the scheme always notifies for a defined scheme and only
rebuilds the dimension option list; every other field is untouched. -/
lemma setSelectedScheme_some (sch : SchemeOption) (s : EState) :
    setSelectedScheme (some sch) s =
      Except.ok { s with selectedScheme := some sch,
                         dimensionOptions := schemeDimensionOptions sch } := by
  unfold setSelectedScheme
  rw [if_neg (by simp)]
  rfl

/-- Setting the dimension to a defined dimension always notifies and only
rebuilds the three downstream option lists. -/
lemma setSelectedDimension_some (d : DimOption) (s : EState) :
    setSelectedDimension (some d) s =
      { s with selectedDimension := some d,
               functionOptions := dimensionFunctionOptions d,
               modifierOptions1 := dimensionModifierOptions1 d,
               modifierOptions2 := dimensionModifierOptions2 d } := by
  unfold setSelectedDimension
  rw [if_neg (by simp)]
  rfl

/-- Setting modifier 1 changes only the modifier-1 selection and (possibly)
the modifier-2 option list. -/
lemma setSelectedModifier1_eq (v : Option ModOption) (s : EState) :
    ∃ o : List ModOption,
      setSelectedModifier1 v s =
        { s with selectedModifier1 := v, modifierOptions2 := o } := by
  unfold setSelectedModifier1
  split
  · next h =>
    obtain ⟨h1, h2⟩ := h
    subst h2
    exact ⟨s.modifierOptions2, by rw [← h1]⟩
  · cases v with
    | none => exact ⟨s.modifierOptions2, rfl⟩
    | some m =>
        exact ⟨modifierOptions2Update m.value s.modifierOptions2, rfl⟩

end TacticalSymbolEditor

namespace TacticalSymbolEditor

/-- C2 (amended): changing the scheme selection rebuilds the dimension
option list from the new scheme's named entries and leaves every selection
— dimension, function, modifier 1, modifier 2, affiliation, status —
unchanged; changing the dimension selection rebuilds the function and
modifier option lists and likewise leaves the scheme, affiliation, status,
function, modifier-1 and modifier-2 selections unchanged. -/
theorem scheme_and_dimension_change_frame :
    (∀ (s : EState) (sch : SchemeOption),
      setSelectedScheme (some sch) s =
        Except.ok { s with selectedScheme := some sch,
                           dimensionOptions := schemeDimensionOptions sch }) ∧
    (∀ (s : EState) (d : DimOption),
      setSelectedDimension (some d) s =
        { s with selectedDimension := some d,
                 functionOptions := dimensionFunctionOptions d,
                 modifierOptions1 := dimensionModifierOptions1 d,
                 modifierOptions2 := dimensionModifierOptions2 d }) :=
  ⟨fun s sch => setSelectedScheme_some sch s,
   fun s d => setSelectedDimension_some d s⟩

/-- C2 (counterexample): from a reachable state holding a full selection,
changing the scheme leaves the dimension selection set, and changing the
dimension leaves the function selection set — neither is cleared as the
claim states. -/
theorem scheme_change_clearing_counterexample :
    (setSchemeState (some (emsSchemeOption sampleCat)) dirtyState).selectedDimension
        = some sampleDimOption ∧
    (setSelectedDimension (some sampleDimOption) dirtyState).selectedFunction
        = some sampleFuncOption := by decide

/-- C3: decoding a code whose first character matches no scheme, from a
state in which a scheme is currently selected, throws a TypeError inside
the scheme subscriber (the `for (var obj in scheme.symbols)` access on an
undefined scheme); the scheme selection has been set to unset at that
point, but the downstream dimension/function/modifier selections are left
holding their stale values rather than being cleared. -/
theorem decode_unknown_scheme_throws :
    decodeThrew "XHGPIN----AB" dirtyState = true ∧
    (decodeState "XHGPIN----AB" dirtyState).selectedScheme = none ∧
    (decodeState "XHGPIN----AB" dirtyState).selectedDimension = some sampleDimOption ∧
    (decodeState "XHGPIN----AB" dirtyState).selectedFunction = some sampleFuncOption := by
  decide

/-- C4 (counterexample): decoding a code whose function segment matches no
catalog entry from a state with a previously selected function leaves the
stale function selection in place instead of unsetting it (the source only
assigns `selectedFunction` when a dimension was resolved). -/
theorem decode_unknown_function_counterexample :
    decodeThrew "EHXPZZZZZZAB" dirtyState = false ∧
    (decodeState "EHXPZZZZZZAB" dirtyState).selectedDimension = none ∧
    (decodeState "EHXPZZZZZZAB" dirtyState).selectedFunction = some sampleFuncOption := by
  decide

/-- C1 (counterexample): with a catalog that satisfies the spec's
pair-uniqueness invariant but has two functions of one dimension sharing a
bare function code, the well-formed code "EHZP000000AB" — every positional
field of which matches a catalog or fixed-vocabulary entry — decodes and
re-encodes to "EHGP000000AB", not to itself, because the function lookup at
line 225 matches on the code alone and ignores the battle dimension. -/
theorem decode_encode_counterexample :
    encodeAfterDecode "EHZP000000AB" (initialState dupCat) = some "EHGP000000AB" ∧
    "EHGP000000AB" ≠ "EHZP000000AB" := by decide

/-- C6 (counterexample): with the same duplicate-code catalog, the
selection built from `dupF2` encodes to "EUZ-000000--", but decoding that
code recovers `dupF1` — a different function with a different battle
dimension. -/
theorem function_roundtrip_counterexample :
    onSave (selectionFromFunction dupCat dupDimOption ⟨"– A2", dupF2⟩)
        = "EUZ-000000--" ∧
    decodeThrew "EUZ-000000--"
        (selectionFromFunction dupCat dupDimOption ⟨"– A2", dupF2⟩) = false ∧
    (decodeState "EUZ-000000--"
        (selectionFromFunction dupCat dupDimOption ⟨"– A2", dupF2⟩)).selectedFunction
        = some ⟨"A1", dupF1⟩ ∧
    dupF1 ≠ dupF2 := by decide

end TacticalSymbolEditor

namespace TacticalSymbolEditor

/-- A "Ground Equipment" dimension option used to exercise the synthetic
modifier special case on a closed input. -/
def geSampleDim : DimOption := ⟨"Ground Equipment", [], [⟨"J", "Trailer"⟩], []⟩

/-- C5: encoding the empty selection yields exactly "SUZ---------", and for
every selection whose components have the documented widths (one character
for scheme, affiliation, status, battle dimension and the modifiers, six
for the function code), the encoded result is exactly 12 characters long. -/
theorem onSave_defaults_and_length (cat : EmergencyJson) :
    onSave (initialState cat) = "SUZ---------" ∧
    ∀ s : EState,
      (∀ x, s.selectedScheme = some x → x.value.length = 1) →
      (∀ x, s.selectedAffiliation = some x → x.value.length = 1) →
      (∀ x, s.selectedStatus = some x → x.value.length = 1) →
      (∀ x, s.selectedFunction = some x →
        x.function.battleDimension.length = 1 ∧ x.function.code.length = 6) →
      (∀ x, s.selectedModifier1 = some x → x.value.length = 1) →
      (∀ x, s.selectedModifier2 = some x → x.value.length = 1) →
      (onSave s).length = 12 := by
  constructor
  · rfl
  · intro s h1 h2 h3 h4 h5 h6
    have p1 : (onSaveCodingScheme s).length = 1 := by
      unfold onSaveCodingScheme
      cases hs : s.selectedScheme with
      | none => rfl
      | some x => exact h1 x hs
    have p2 : (onSaveStdIdentity s).length = 1 := by
      unfold onSaveStdIdentity
      cases hs : s.selectedAffiliation with
      | none => rfl
      | some x => exact h2 x hs
    have p3 : (onSaveOperationalStatus s).length = 1 := by
      unfold onSaveOperationalStatus
      cases hs : s.selectedStatus with
      | none => rfl
      | some x => exact h3 x hs
    have p4 : (onSaveBattleDim s).length = 1 := by
      unfold onSaveBattleDim onSaveIcon
      cases hs : s.selectedFunction with
      | none => rfl
      | some x => simpa using (h4 x hs).1
    have p5 : (onSaveFunctionId s).length = 6 := by
      unfold onSaveFunctionId onSaveIcon
      cases hs : s.selectedFunction with
      | none => rfl
      | some x => simpa using (h4 x hs).2
    have p6 : (onSaveModifier1 s).length = 1 := by
      unfold onSaveModifier1
      cases hs : s.selectedModifier1 with
      | none => rfl
      | some x => exact h5 x hs
    have p7 : (onSaveModifier2 s).length = 1 := by
      unfold onSaveModifier2
      cases hs : s.selectedModifier2 with
      | none => rfl
      | some x => exact h6 x hs
    simp [onSave, String.length_append, p1, p2, p3, p4, p5, p6, p7]

/-- C5 (witness): the empty selection encodes to the default 12-character
code. -/
theorem onSave_defaults_and_length_witness :
    onSave (initialState sampleCat) = "SUZ---------" ∧
    (onSave (initialState sampleCat)).length = 12 :=
  ⟨(onSave_defaults_and_length sampleCat).1,
   (onSave_defaults_and_length sampleCat).2 (initialState sampleCat)
     (fun x h => by simp [initialState] at h)
     (fun x h => by simp [initialState] at h)
     (fun x h => by simp [initialState] at h)
     (fun x h => by simp [initialState] at h)
     (fun x h => by simp [initialState] at h)
     (fun x h => by simp [initialState] at h)⟩

end TacticalSymbolEditor

namespace TacticalSymbolEditor

/-- C7: when the dimension selection changes to a dimension named exactly
"Ground Equipment", the rebuilt modifier-1 option list is the dimension's
modifier-1 table entries followed by exactly the two synthetic options
Mobility (key "M") and Towed Array (key "N"); for a dimension with any
other name the list is exactly the table entries, with nothing appended. -/
theorem dimension_change_modifier1_options :
    (∀ (s : EState) (d : DimOption), d.name = "Ground Equipment" →
      (setSelectedDimension (some d) s).modifierOptions1 =
        d.modifiers1.map (fun e => ⟨e.key, e.name⟩) ++
          [⟨"M", "Mobility"⟩, ⟨"N", "Towed Array"⟩]) ∧
    (∀ (s : EState) (d : DimOption), d.name ≠ "Ground Equipment" →
      (setSelectedDimension (some d) s).modifierOptions1 =
        d.modifiers1.map (fun e => ⟨e.key, e.name⟩)) := by
  constructor <;> intro s d h <;>
    simp [setSelectedDimension_some, dimensionModifierOptions1, h]

/-- C7 (witness): both branches at concrete dimensions. -/
theorem dimension_change_modifier1_options_witness :
    (setSelectedDimension (some geSampleDim) (initialState sampleCat)).modifierOptions1 =
      geSampleDim.modifiers1.map (fun e => ⟨e.key, e.name⟩) ++
        [⟨"M", "Mobility"⟩, ⟨"N", "Towed Array"⟩] ∧
    (setSelectedDimension (some sampleDimOption) (initialState sampleCat)).modifierOptions1 =
      sampleDimOption.modifiers1.map (fun e => ⟨e.key, e.name⟩) :=
  ⟨dimension_change_modifier1_options.1 (initialState sampleCat) geSampleDim rfl,
   dimension_change_modifier1_options.2 (initialState sampleCat) sampleDimOption
     (by decide)⟩

/-- C8: changing modifier 1 to a value with key "M" replaces the modifier-2
option list with exactly the fixed 11-entry mobility vocabulary (keys O
through Y in order); key "N" replaces it with exactly the 2-entry
towed-array vocabulary (keys S, L); any other value — and an unset value —
leaves the modifier-2 option list unchanged. -/
theorem modifier1_change_modifier2_options :
    mobilityOptions.map ModOption.value =
      ["O", "P", "Q", "R", "S", "T", "U", "V", "W", "X", "Y"] ∧
    towedArrayOptions.map ModOption.value = ["S", "L"] ∧
    (∀ (s : EState) (m : ModOption), m.value = "M" →
      (setSelectedModifier1 (some m) s).modifierOptions2 = mobilityOptions) ∧
    (∀ (s : EState) (m : ModOption), m.value = "N" →
      (setSelectedModifier1 (some m) s).modifierOptions2 = towedArrayOptions) ∧
    (∀ (s : EState) (m : ModOption), m.value ≠ "M" → m.value ≠ "N" →
      (setSelectedModifier1 (some m) s).modifierOptions2 = s.modifierOptions2) ∧
    (∀ s : EState, (setSelectedModifier1 none s).modifierOptions2 =
      s.modifierOptions2) := by
  refine ⟨by decide, by decide, ?_, ?_, ?_, ?_⟩
  · intro s m h
    simp [setSelectedModifier1, modifier1Subscribe, modifierOptions2Update, h]
  · intro s m h
    simp [setSelectedModifier1, modifier1Subscribe, modifierOptions2Update, h]
  · intro s m h1 h2
    simp [setSelectedModifier1, modifier1Subscribe, modifierOptions2Update, h1, h2]
  · intro s
    unfold setSelectedModifier1
    split <;> rfl

/-- C8 (witness): the three branches at concrete modifier values. -/
theorem modifier1_change_modifier2_options_witness :
    (setSelectedModifier1 (some ⟨"M", "Mobility"⟩) dirtyState).modifierOptions2 =
      mobilityOptions ∧
    (setSelectedModifier1 (some ⟨"N", "Towed Array"⟩) dirtyState).modifierOptions2 =
      towedArrayOptions ∧
    (setSelectedModifier1 (some ⟨"A", "Alpha"⟩) dirtyState).modifierOptions2 =
      dirtyState.modifierOptions2 :=
  ⟨modifier1_change_modifier2_options.2.2.1 dirtyState ⟨"M", "Mobility"⟩ rfl,
   modifier1_change_modifier2_options.2.2.2.1 dirtyState ⟨"N", "Towed Array"⟩ rfl,
   modifier1_change_modifier2_options.2.2.2.2.1 dirtyState ⟨"A", "Alpha"⟩
     (by decide) (by decide)⟩

end TacticalSymbolEditor

namespace FireRestAPI

/-- C9: `tryParseJSONString` is total: whenever the JSON parser returns a
value it returns that value, and whenever the parser throws it returns
null, never propagating the exception. -/
theorem tryParseJSONString_total {ε α : Type} (jsonParse : String → Except ε α)
    (str : String) :
    (∀ v, jsonParse str = Except.ok v →
      tryParseJSONString jsonParse str = some v) ∧
    (∀ e, jsonParse str = Except.error e →
      tryParseJSONString jsonParse str = none) := by
  constructor <;> intro x h <;> simp [tryParseJSONString, h]

/-- A concrete stand-in parser used to witness `tryParseJSONString_total`. -/
def jsonParseSample : String → Except String Nat :=
  fun s => if s = "7" then Except.ok 7 else Except.error "SyntaxError"

/-- C9 (witness): the concrete parser at a valid and an invalid string. -/
theorem tryParseJSONString_total_witness :
    tryParseJSONString jsonParseSample "7" = some 7 ∧
    tryParseJSONString jsonParseSample "oops" = none :=
  ⟨(tryParseJSONString_total jsonParseSample "7").1 7 rfl,
   (tryParseJSONString_total jsonParseSample "oops").2 "SyntaxError" rfl⟩

/-- C10: `handleFires` creates exactly one symbol per row of the response
data, in array order; every created symbol carries the fixed symbol code
"EHIPC-------" (and fixed isMoveable/user flags), and only the position,
both timestamps, the verified flag and the fid vary with the record. -/
theorem handleFires_spec {V : Type} (data : List (FireRecord V)) :
    (handleFires data).length = data.length ∧
    (∀ sym ∈ handleFires data, sym.symbolCode = "EHIPC-------" ∧
      sym.isMoveable = false ∧ sym.user = false) ∧
    (∀ i : Nat,
      (handleFires data)[i]?.map (fun sym =>
        (sym.position.latitude, sym.position.longitude, sym.position.altitude,
         sym.timeReported, sym.timeExtinguished, sym.verified, sym.fid)) =
      data[i]?.map (fun r =>
        (r.fire_lat, r.fire_lon, r.fire_alt,
         r.reportedtimemark, r.fire_extinguished, r.fire_verified, r.fid))) := by
  refine ⟨by simp [handleFires], ?_, ?_⟩
  · intro sym hmem
    simp only [handleFires, List.mem_map] at hmem
    obtain ⟨r, _, rfl⟩ := hmem
    exact ⟨rfl, rfl, rfl⟩
  · intro i
    simp only [handleFires, List.getElem?_map, Option.map_map]
    cases data[i]? <;> rfl

/-- A concrete one-row response used to witness `handleFires_spec`. -/
def fireRecordSample : FireRecord Nat := ⟨1, 2, 3, 4, 5, 6, 7⟩

/-- The symbol `handleFires` builds for the concrete row. -/
def tacticalSymbolSample : TacticalSymbolArgs Nat :=
  ⟨⟨1, 2, 3⟩, "EHIPC-------", 5, 6, false, false, 7, 4⟩

/-- C10 (witness): the symbol built for the concrete row carries the fixed
code and flags. -/
theorem handleFires_spec_witness :
    (handleFires [fireRecordSample]).length = [fireRecordSample].length ∧
    (tacticalSymbolSample.symbolCode = "EHIPC-------" ∧
      tacticalSymbolSample.isMoveable = false ∧
      tacticalSymbolSample.user = false) :=
  ⟨(handleFires_spec [fireRecordSample]).1,
   (handleFires_spec [fireRecordSample]).2.1 tacticalSymbolSample (by decide)⟩

end FireRestAPI

namespace TacticalSymbolEditor

/-- Modifier-2 option list produced by setting modifier 1 to a find result:
untouched for an unset result, updated by the subscriber otherwise. -/
def modifierOptions2AfterFind (m1r : Option ModOption) (cur : List ModOption) :
    List ModOption :=
  match m1r with
  | some m => modifierOptions2Update m.value cur
  | none => cur

/-- Full characterisation of setting modifier 1: the selection takes the new
value and the modifier-2 option list is updated accordingly; nothing else
changes. -/
lemma setSelectedModifier1_full (v : Option ModOption) (s : EState) :
    setSelectedModifier1 v s =
      { s with selectedModifier1 := v,
               modifierOptions2 :=
                 modifierOptions2AfterFind v s.modifierOptions2 } := by
  unfold setSelectedModifier1 modifierOptions2AfterFind
  split
  · next h =>
    obtain ⟨h1, h2⟩ := h
    subst h2
    dsimp only
    rw [← h1]
  · cases v with
    | none => rfl
    | some m => rfl

/-- Setting the dimension never touches the selections other than the
dimension one, nor the scheme option list. -/
lemma setSelectedDimension_proj (v : Option DimOption) (s : EState) :
    (setSelectedDimension v s).selectedDimension = v ∧
    (setSelectedDimension v s).selectedScheme = s.selectedScheme ∧
    (setSelectedDimension v s).selectedFunction = s.selectedFunction ∧
    (setSelectedDimension v s).selectedAffiliation = s.selectedAffiliation ∧
    (setSelectedDimension v s).selectedStatus = s.selectedStatus ∧
    (setSelectedDimension v s).selectedModifier1 = s.selectedModifier1 ∧
    (setSelectedDimension v s).selectedModifier2 = s.selectedModifier2 ∧
    (setSelectedDimension v s).schemeOptions = s.schemeOptions := by
  unfold setSelectedDimension dimensionSubscribe
  split
  · next h =>
    obtain ⟨h1, h2⟩ := h
    subst h2
    exact ⟨h1, rfl, rfl, rfl, rfl, rfl, rfl, rfl⟩
  · cases v with
    | none => exact ⟨rfl, rfl, rfl, rfl, rfl, rfl, rfl, rfl⟩
    | some d => exact ⟨rfl, rfl, rfl, rfl, rfl, rfl, rfl, rfl⟩

/-- Appending character lists commutes with `asString`. -/
lemma asString_append (a b : List Char) :
    (a ++ b).asString = a.asString ++ b.asString := rfl

/-- The seven positional slices of a 12-character code concatenate back to
the code itself. -/
lemma jsSubstring_reassemble (code : String) (h : code.length = 12) :
    jsSubstring code 0 1 ++ jsSubstring code 1 2 ++ jsSubstring code 2 3
      ++ jsSubstring code 3 4 ++ jsSubstring code 4 10
      ++ jsSubstring code 10 11 ++ jsSubstring code 11 12 = code := by
  have hl : code.toList.length = 12 := h
  have key : ∀ l : List Char, l.length = 12 →
      l.take 1 ++ (l.drop 1).take 1 ++ (l.drop 2).take 1 ++ (l.drop 3).take 1
        ++ (l.drop 4).take 6 ++ (l.drop 10).take 1 ++ (l.drop 11).take 1 = l := by
    intro l hlen
    have e11 : (l.drop 11).take 1 = l.drop 11 :=
      List.take_of_length_le (by simp [hlen])
    have e10 : (l.drop 10).take 1 ++ l.drop 11 = l.drop 10 := by
      have h1 : (l.drop 10).drop 1 = l.drop 11 := by
        rw [List.drop_drop]
      rw [← h1, List.take_append_drop]
    have e4 : (l.drop 4).take 6 ++ l.drop 10 = l.drop 4 := by
      have h1 : (l.drop 4).drop 6 = l.drop 10 := by
        rw [List.drop_drop]
      rw [← h1, List.take_append_drop]
    have e3 : (l.drop 3).take 1 ++ l.drop 4 = l.drop 3 := by
      have h1 : (l.drop 3).drop 1 = l.drop 4 := by
        rw [List.drop_drop]
      rw [← h1, List.take_append_drop]
    have e2 : (l.drop 2).take 1 ++ l.drop 3 = l.drop 2 := by
      have h1 : (l.drop 2).drop 1 = l.drop 3 := by
        rw [List.drop_drop]
      rw [← h1, List.take_append_drop]
    have e1 : (l.drop 1).take 1 ++ l.drop 2 = l.drop 1 := by
      have h1 : (l.drop 1).drop 1 = l.drop 2 := by
        rw [List.drop_drop]
      rw [← h1, List.take_append_drop]
    calc l.take 1 ++ (l.drop 1).take 1 ++ (l.drop 2).take 1 ++ (l.drop 3).take 1
          ++ (l.drop 4).take 6 ++ (l.drop 10).take 1 ++ (l.drop 11).take 1
        = l.take 1 ++ ((l.drop 1).take 1 ++ ((l.drop 2).take 1
            ++ ((l.drop 3).take 1 ++ ((l.drop 4).take 6
            ++ ((l.drop 10).take 1 ++ (l.drop 11).take 1))))) := by
          simp [List.append_assoc]
      _ = l := by
          rw [e11, e10, e4, e3, e2, e1, List.take_append_drop]
  have goal : (code.toList.take 1 ++ (code.toList.drop 1).take 1
      ++ (code.toList.drop 2).take 1 ++ (code.toList.drop 3).take 1
      ++ (code.toList.drop 4).take 6 ++ (code.toList.drop 10).take 1
      ++ (code.toList.drop 11).take 1).asString = code := by
    rw [key code.toList hl]
    rfl
  calc jsSubstring code 0 1 ++ jsSubstring code 1 2 ++ jsSubstring code 2 3
        ++ jsSubstring code 3 4 ++ jsSubstring code 4 10
        ++ jsSubstring code 10 11 ++ jsSubstring code 11 12
      = (code.toList.take 1 ++ (code.toList.drop 1).take 1
          ++ (code.toList.drop 2).take 1 ++ (code.toList.drop 3).take 1
          ++ (code.toList.drop 4).take 6 ++ (code.toList.drop 10).take 1
          ++ (code.toList.drop 11).take 1).asString := by
        simp only [jsSubstring, asString_append]
        norm_num
    _ = code := goal

end TacticalSymbolEditor

namespace TacticalSymbolEditor

/-- Slicing a concatenation at the boundary of a middle piece recovers it. -/
lemma jsChunk (pre mid post : List Char) (a b : Nat)
    (ha : a = pre.length) (hb : b = pre.length + mid.length) :
    ((pre ++ (mid ++ post)).drop a).take (b - a) = mid := by
  subst ha
  subst hb
  rw [List.drop_left, Nat.add_sub_cancel_left, List.take_left]

/-- The seven positional slices of a code assembled from pieces of the
documented widths recover exactly those pieces. -/
lemma jsSubstring_parts (p0 p1 p2 p3 p4 p5 p6 : String)
    (l0 : p0.length = 1) (l1 : p1.length = 1) (l2 : p2.length = 1)
    (l3 : p3.length = 1) (l4 : p4.length = 6) (l5 : p5.length = 1)
    (l6 : p6.length = 1) :
    jsSubstring (p0 ++ p1 ++ p2 ++ p3 ++ p4 ++ p5 ++ p6) 0 1 = p0 ∧
    jsSubstring (p0 ++ p1 ++ p2 ++ p3 ++ p4 ++ p5 ++ p6) 1 2 = p1 ∧
    jsSubstring (p0 ++ p1 ++ p2 ++ p3 ++ p4 ++ p5 ++ p6) 2 3 = p2 ∧
    jsSubstring (p0 ++ p1 ++ p2 ++ p3 ++ p4 ++ p5 ++ p6) 3 4 = p3 ∧
    jsSubstring (p0 ++ p1 ++ p2 ++ p3 ++ p4 ++ p5 ++ p6) 4 10 = p4 ∧
    jsSubstring (p0 ++ p1 ++ p2 ++ p3 ++ p4 ++ p5 ++ p6) 10 11 = p5 ∧
    jsSubstring (p0 ++ p1 ++ p2 ++ p3 ++ p4 ++ p5 ++ p6) 11 12 = p6 := by
  have d0 : p0.data.length = 1 := l0
  have d1 : p1.data.length = 1 := l1
  have d2 : p2.data.length = 1 := l2
  have d3 : p3.data.length = 1 := l3
  have d4 : p4.data.length = 6 := l4
  have d5 : p5.data.length = 1 := l5
  have d6 : p6.data.length = 1 := l6
  have hs0 : (p0 ++ p1 ++ p2 ++ p3 ++ p4 ++ p5 ++ p6).toList =
      [] ++ (p0.data ++ (p1.data ++ (p2.data ++ (p3.data
        ++ (p4.data ++ (p5.data ++ p6.data)))))) := by
    show (p0 ++ p1 ++ p2 ++ p3 ++ p4 ++ p5 ++ p6).data = _
    simp [String.data_append, List.append_assoc]
  have hs1 : (p0 ++ p1 ++ p2 ++ p3 ++ p4 ++ p5 ++ p6).toList =
      p0.data ++ (p1.data ++ (p2.data ++ (p3.data
        ++ (p4.data ++ (p5.data ++ p6.data))))) := by
    show (p0 ++ p1 ++ p2 ++ p3 ++ p4 ++ p5 ++ p6).data = _
    simp [String.data_append, List.append_assoc]
  have hs2 : (p0 ++ p1 ++ p2 ++ p3 ++ p4 ++ p5 ++ p6).toList =
      (p0.data ++ p1.data) ++ (p2.data ++ (p3.data
        ++ (p4.data ++ (p5.data ++ p6.data)))) := by
    show (p0 ++ p1 ++ p2 ++ p3 ++ p4 ++ p5 ++ p6).data = _
    simp [String.data_append, List.append_assoc]
  have hs3 : (p0 ++ p1 ++ p2 ++ p3 ++ p4 ++ p5 ++ p6).toList =
      (p0.data ++ p1.data ++ p2.data) ++ (p3.data
        ++ (p4.data ++ (p5.data ++ p6.data))) := by
    show (p0 ++ p1 ++ p2 ++ p3 ++ p4 ++ p5 ++ p6).data = _
    simp [String.data_append, List.append_assoc]
  have hs4 : (p0 ++ p1 ++ p2 ++ p3 ++ p4 ++ p5 ++ p6).toList =
      (p0.data ++ p1.data ++ p2.data ++ p3.data)
        ++ (p4.data ++ (p5.data ++ p6.data)) := by
    show (p0 ++ p1 ++ p2 ++ p3 ++ p4 ++ p5 ++ p6).data = _
    simp [String.data_append, List.append_assoc]
  have hs5 : (p0 ++ p1 ++ p2 ++ p3 ++ p4 ++ p5 ++ p6).toList =
      (p0.data ++ p1.data ++ p2.data ++ p3.data ++ p4.data)
        ++ (p5.data ++ p6.data) := by
    show (p0 ++ p1 ++ p2 ++ p3 ++ p4 ++ p5 ++ p6).data = _
    simp [String.data_append, List.append_assoc]
  have hs6 : (p0 ++ p1 ++ p2 ++ p3 ++ p4 ++ p5 ++ p6).toList =
      (p0.data ++ p1.data ++ p2.data ++ p3.data ++ p4.data ++ p5.data)
        ++ (p6.data ++ []) := by
    show (p0 ++ p1 ++ p2 ++ p3 ++ p4 ++ p5 ++ p6).data = _
    simp [String.data_append, List.append_assoc]
  refine ⟨?_, ?_, ?_, ?_, ?_, ?_, ?_⟩
  · unfold jsSubstring
    rw [hs0, jsChunk [] p0.data _ 0 1 (by simp) (by simp [d0])]
    rfl
  · unfold jsSubstring
    rw [hs1, jsChunk p0.data p1.data _ 1 2 (by simp [d0]) (by simp [d0, d1])]
    rfl
  · unfold jsSubstring
    rw [hs2, jsChunk (p0.data ++ p1.data) p2.data _ 2 3
      (by simp [d0, d1]) (by simp [d0, d1, d2])]
    rfl
  · unfold jsSubstring
    rw [hs3, jsChunk (p0.data ++ p1.data ++ p2.data) p3.data _ 3 4
      (by simp [d0, d1, d2]) (by simp [d0, d1, d2, d3])]
    rfl
  · unfold jsSubstring
    rw [hs4, jsChunk (p0.data ++ p1.data ++ p2.data ++ p3.data) p4.data _ 4 10
      (by simp [d0, d1, d2, d3]) (by simp [d0, d1, d2, d3, d4])]
    rfl
  · unfold jsSubstring
    rw [hs5, jsChunk (p0.data ++ p1.data ++ p2.data ++ p3.data ++ p4.data)
      p5.data _ 10 11
      (by simp [d0, d1, d2, d3, d4]) (by simp [d0, d1, d2, d3, d4, d5])]
    rfl
  · unfold jsSubstring
    rw [hs6, jsChunk (p0.data ++ p1.data ++ p2.data ++ p3.data ++ p4.data
        ++ p5.data) p6.data _ 11 12
      (by simp [d0, d1, d2, d3, d4, d5]) (by simp [d0, d1, d2, d3, d4, d5, d6])]
    rfl

/-- Searching the derived function options by code is searching the
dimension's function list by code. -/
lemma find?_dimensionFunctionOptions (d : DimOption) (q : String) :
    (dimensionFunctionOptions d).find? (fun element => element.function.code == q)
      = (d.functions.find? (fun f => f.code == q)).map
          (fun f => (⟨functionDisplayName f, f⟩ : FuncOption)) := by
  unfold dimensionFunctionOptions
  rw [List.find?_map]
  rfl

end TacticalSymbolEditor

namespace TacticalSymbolEditor

/-- Full evaluation of the decode tail when the dimension search succeeds
and the rebuilt function options contain the searched code. -/
lemma decodeRest_dim_found (code : String) (s1 : EState) (d : DimOption) (g : Func)
    (hdim : s1.dimensionOptions.find? (fun element =>
        (element.functions.find? (fun iconElement =>
          iconElement.battleDimension == jsSubstring code 2 3
            && iconElement.code == jsSubstring code 4 10)).isSome) = some d)
    (hg : d.functions.find? (fun f => f.code == jsSubstring code 4 10) = some g) :
    decodeRest code s1 =
      { s1 with
          selectedDimension := some d,
          functionOptions := dimensionFunctionOptions d,
          modifierOptions1 := dimensionModifierOptions1 d,
          modifierOptions2 := modifierOptions2AfterFind
            ((dimensionModifierOptions1 d).find? (fun element =>
              element.value == jsSubstring code 10 11))
            (dimensionModifierOptions2 d),
          selectedFunction := some ⟨functionDisplayName g, g⟩,
          selectedAffiliation := affiliationOptions.find? (fun element =>
            element.value == jsSubstring code 1 2),
          selectedStatus := statusOptions.find? (fun element =>
            element.value == jsSubstring code 3 4),
          selectedModifier1 := (dimensionModifierOptions1 d).find? (fun element =>
            element.value == jsSubstring code 10 11),
          selectedModifier2 := (modifierOptions2AfterFind
            ((dimensionModifierOptions1 d).find? (fun element =>
              element.value == jsSubstring code 10 11))
            (dimensionModifierOptions2 d)).find? (fun element =>
              element.value == jsSubstring code 11 12) } := by
  simp only [decodeRest]
  rw [hdim, setSelectedDimension_some]
  simp only [Option.isSome_some, eq_self_iff_true, if_true,
    find?_dimensionFunctionOptions, hg, Option.map_some',
    setSelectedModifier1_full]

end TacticalSymbolEditor

namespace TacticalSymbolEditor

/-- When the code's first character is "E", the decode's scheme step
succeeds and the rest of the decode runs on the state with the scheme set
and the dimension options rebuilt. -/
lemma symbolSubscribe_scheme_found (cat : EmergencyJson) (s : EState) (code : String)
    (hopts : s.schemeOptions = schemeOptionList cat)
    (h0 : jsSubstring code 0 1 = "E") :
    symbolSubscribe code s = Except.ok (decodeRest code
      { s with selectedScheme := some (emsSchemeOption cat),
               dimensionOptions := schemeDimensionOptions (emsSchemeOption cat) }) := by
  have hfind : s.schemeOptions.find? (fun element =>
      element.value == jsSubstring code 0 1) = some (emsSchemeOption cat) := by
    rw [hopts, h0]
    rfl
  simp only [symbolSubscribe]
  rw [hfind, setSelectedScheme_some]

/-- Projections of the decode tail when the dimension search fails: the
dimension becomes unset, the function selection keeps its previous value,
and affiliation/status are resolved against their fixed vocabularies. -/
lemma decodeRest_dim_none_proj (code : String) (s1 : EState)
    (hdim : s1.dimensionOptions.find? (fun element =>
        (element.functions.find? (fun iconElement =>
          iconElement.battleDimension == jsSubstring code 2 3
            && iconElement.code == jsSubstring code 4 10)).isSome) = none) :
    (decodeRest code s1).selectedScheme = s1.selectedScheme ∧
    (decodeRest code s1).selectedDimension = none ∧
    (decodeRest code s1).selectedFunction = s1.selectedFunction ∧
    (decodeRest code s1).selectedAffiliation =
      affiliationOptions.find? (fun element =>
        element.value == jsSubstring code 1 2) ∧
    (decodeRest code s1).selectedStatus =
      statusOptions.find? (fun element =>
        element.value == jsSubstring code 3 4) := by
  obtain ⟨P1, P2, P3, P4, P5, P6, P7, P8⟩ := setSelectedDimension_proj none s1
  simp only [decodeRest, hdim, P1, P2, P3, Option.isSome_none,
    Bool.false_eq_true, if_false, setSelectedModifier1_full, and_self,
    and_true, true_and]

/-- C4 (amended): decoding a code whose scheme, affiliation and status
characters match but whose (battle dimension, function code) pair matches
no function in any named dimension of the scheme resolves scheme,
affiliation and status, leaves the dimension unset, and leaves the function
selection unchanged from its previous value (so it is unset exactly when it
was unset before, e.g. when decoding from the freshly opened editor). -/
theorem decode_unknown_function (cat : EmergencyJson) (s : EState) (code : String)
    (hopts : s.schemeOptions = schemeOptionList cat)
    (h0 : jsSubstring code 0 1 = "E")
    (h1 : jsSubstring code 1 2 = "H")
    (h3 : jsSubstring code 3 4 = "P")
    (hnod : (schemeDimensionOptions (emsSchemeOption cat)).find? (fun element =>
        (element.functions.find? (fun iconElement =>
          iconElement.battleDimension == jsSubstring code 2 3
            && iconElement.code == jsSubstring code 4 10)).isSome) = none) :
    ∃ t, symbolSubscribe code s = Except.ok t ∧
      t.selectedScheme = some (emsSchemeOption cat) ∧
      t.selectedDimension = none ∧
      t.selectedFunction = s.selectedFunction ∧
      t.selectedAffiliation = some ⟨"H", "H: Hostile"⟩ ∧
      t.selectedStatus = some ⟨"P", "P: Present"⟩ := by
  rw [symbolSubscribe_scheme_found cat s code hopts h0]
  obtain ⟨Q1, Q2, Q3, Q4, Q5⟩ := decodeRest_dim_none_proj code
    { s with selectedScheme := some (emsSchemeOption cat),
             dimensionOptions := schemeDimensionOptions (emsSchemeOption cat) }
    hnod
  refine ⟨_, rfl, ?_, Q2, ?_, ?_, ?_⟩
  · rw [Q1]
  · rw [Q3]
  · rw [Q4, h1]
    rfl
  · rw [Q5, h3]
    rfl

/-- C4 (witness): decoding "EHXPZZZZZZAB" from the freshly opened editor
leaves dimension and function unset while scheme, affiliation and status
resolve. -/
theorem decode_unknown_function_witness :
    ∃ t, symbolSubscribe "EHXPZZZZZZAB" (initialState sampleCat) = Except.ok t ∧
      t.selectedScheme = some (emsSchemeOption sampleCat) ∧
      t.selectedDimension = none ∧
      t.selectedFunction = (initialState sampleCat).selectedFunction ∧
      t.selectedAffiliation = some ⟨"H", "H: Hostile"⟩ ∧
      t.selectedStatus = some ⟨"P", "P: Present"⟩ :=
  decode_unknown_function sampleCat (initialState sampleCat) "EHXPZZZZZZAB"
    rfl rfl rfl rfl (by decide)

end TacticalSymbolEditor

namespace TacticalSymbolEditor

/-- C1 (amended): decoding a 12-character code whose every positional field
matches a catalog or fixed-vocabulary entry and re-encoding reproduces the
code exactly, PROVIDED the first function of the resolved dimension whose
bare code equals the code's function segment also carries the code's battle
dimension character (in particular whenever bare function codes are unique
within a dimension).  The proviso is forced on the claim because the decode
looks the function up by its six-character code alone, ignoring the battle
dimension (line 225). -/
theorem decode_encode_roundtrip (cat : EmergencyJson) (s : EState) (code : String)
    (hopts : s.schemeOptions = schemeOptionList cat)
    (hlen : code.length = 12)
    (h0 : jsSubstring code 0 1 = "E")
    (h1 : jsSubstring code 1 2 = "H")
    (h3 : jsSubstring code 3 4 = "P")
    (d : DimOption)
    (hdim : (schemeDimensionOptions (emsSchemeOption cat)).find? (fun element =>
        (element.functions.find? (fun iconElement =>
          iconElement.battleDimension == jsSubstring code 2 3
            && iconElement.code == jsSubstring code 4 10)).isSome) = some d)
    (hbd : (d.functions.find? (fun f => f.code == jsSubstring code 4 10)).map
        Func.battleDimension = some (jsSubstring code 2 3))
    (hm12 : (((dimensionModifierOptions1 d).find? (fun element =>
        element.value == jsSubstring code 10 11)).bind (fun m =>
          (modifierOptions2AfterFind (some m) (dimensionModifierOptions2 d)).find?
            (fun element => element.value == jsSubstring code 11 12))).isSome
        = true) :
    ∃ t, symbolSubscribe code s = Except.ok t ∧ onSave t = code := by
  rcases hfg : d.functions.find? (fun f => f.code == jsSubstring code 4 10)
    with _ | g
  · rw [hfg] at hbd
    simp at hbd
  have hgbd : g.battleDimension = jsSubstring code 2 3 := by
    rw [hfg] at hbd
    simpa using hbd
  have hgcode : g.code = jsSubstring code 4 10 := by
    simpa using List.find?_some hfg
  rcases hm1 : (dimensionModifierOptions1 d).find? (fun element =>
      element.value == jsSubstring code 10 11) with _ | m1
  · rw [hm1] at hm12
    simp at hm12
  have hm1v : m1.value = jsSubstring code 10 11 := by
    simpa using List.find?_some hm1
  rw [hm1, Option.some_bind] at hm12
  rcases hm2 : (modifierOptions2AfterFind (some m1)
      (dimensionModifierOptions2 d)).find? (fun element =>
        element.value == jsSubstring code 11 12) with _ | m2
  · rw [hm2] at hm12
    simp at hm12
  have hm2v : m2.value = jsSubstring code 11 12 := by
    simpa using List.find?_some hm2
  rw [symbolSubscribe_scheme_found cat s code hopts h0]
  rw [decodeRest_dim_found code _ d g hdim hfg]
  refine ⟨_, rfl, ?_⟩
  unfold onSave onSaveCodingScheme onSaveStdIdentity onSaveBattleDim
    onSaveOperationalStatus onSaveFunctionId onSaveModifier1 onSaveModifier2
    onSaveIcon
  dsimp only
  rw [hm1]
  dsimp only
  rw [hm2]
  dsimp only
  rw [h1, h3]
  simp only [affiliationOptions, statusOptions, emsSchemeOption,
    List.find?, beq_self_eq_true, Option.map_some']
  rw [hgbd, hgcode, hm1v, hm2v, ← h0, ← h1, ← h3]
  exact jsSubstring_reassemble code hlen

end TacticalSymbolEditor

namespace TacticalSymbolEditor

/-- C1 (witness): the concrete well-formed code "EHGPIN----AB" decodes and
re-encodes to itself over the sample catalog. -/
theorem decode_encode_roundtrip_witness :
    ∃ t, symbolSubscribe "EHGPIN----AB" (initialState sampleCat) = Except.ok t ∧
      onSave t = "EHGPIN----AB" :=
  decode_encode_roundtrip sampleCat (initialState sampleCat) "EHGPIN----AB"
    rfl rfl rfl rfl rfl sampleDimOption (by decide) (by decide) (by decide)

/-- C6 (amended): for a catalog function, encoding the selection built from
it (its scheme, its dimension, the function itself) and decoding the result
recovers the same scheme, dimension and function, PROVIDED the function is
the first one in its dimension carrying its bare six-character code (forced
on the claim because the decode matches functions by code alone, line 225);
the one-character battle dimension and six-character code widths are the
documented catalog invariants. -/
theorem function_roundtrip (cat : EmergencyJson) (d : DimOption) (fo : FuncOption)
    (hw1 : fo.function.battleDimension.length = 1)
    (hw6 : fo.function.code.length = 6)
    (hdim : (schemeDimensionOptions (emsSchemeOption cat)).find? (fun element =>
        (element.functions.find? (fun iconElement =>
          iconElement.battleDimension == fo.function.battleDimension
            && iconElement.code == fo.function.code)).isSome) = some d)
    (hg : d.functions.find? (fun f => f.code == fo.function.code)
        = some fo.function) :
    ∃ t, symbolSubscribe (onSave (selectionFromFunction cat d fo))
        (selectionFromFunction cat d fo) = Except.ok t ∧
      t.selectedScheme = some (emsSchemeOption cat) ∧
      t.selectedDimension = some d ∧
      t.selectedFunction.map (fun o => o.function) = some fo.function := by
  have henc : onSave (selectionFromFunction cat d fo)
      = "E" ++ "U" ++ fo.function.battleDimension ++ "-"
        ++ fo.function.code ++ "-" ++ "-" := rfl
  obtain ⟨q0, q1, q2, q3, q4, q5, q6⟩ := jsSubstring_parts "E" "U"
    fo.function.battleDimension "-" fo.function.code "-" "-"
    rfl rfl hw1 rfl hw6 rfl rfl
  rw [henc]
  rw [symbolSubscribe_scheme_found cat (selectionFromFunction cat d fo)
    ("E" ++ "U" ++ fo.function.battleDimension ++ "-"
      ++ fo.function.code ++ "-" ++ "-") rfl q0]
  rw [decodeRest_dim_found _ _ d fo.function
    (by rw [q2, q4]; exact hdim) (by rw [q4]; exact hg)]
  exact ⟨_, rfl, rfl, rfl, rfl⟩

/-- C6 (witness): the round trip at the concrete sample function. -/
theorem function_roundtrip_witness :
    ∃ t, symbolSubscribe
        (onSave (selectionFromFunction sampleCat sampleDimOption sampleFuncOption))
        (selectionFromFunction sampleCat sampleDimOption sampleFuncOption)
        = Except.ok t ∧
      t.selectedScheme = some (emsSchemeOption sampleCat) ∧
      t.selectedDimension = some sampleDimOption ∧
      t.selectedFunction.map (fun o => o.function)
        = some sampleFuncOption.function :=
  function_roundtrip sampleCat sampleDimOption sampleFuncOption rfl rfl
    (by decide) (by decide)

end TacticalSymbolEditor
